import Mathlib

/-!
Shallow embedding of src/src/meta_schedule/database/database.cc
(tvm::meta_schedule): the Workload / TuningRecord data model, the
hash-verified JSON codec, the Database query facade, and the thread-local
scoped-database stack, together with theorems settling the spec claims.

External collaborators (structural hashing, module JSON serialization,
base64, schedules, traces, targets, arg-info) are opaque in the source and
are modelled as parameters bundled in `CodecExt` / `SchedExt`.
-/

/-- Portable tree-structured values: the subset of TVM `ObjectRef` shapes the
codec manipulates. `null` models an undefined `ObjectRef` (JSON null);
`num` models numeric leaves (IntImm/FloatImm payloads, value irrelevant to
the claims). -/
inductive JValue where
  | null : JValue
  | str : String → JValue
  | num : Int → JValue
  | arr : List JValue → JValue
  | map : List (String × JValue) → JValue
  deriving Repr

/-- Detail of a failure raised inside the try-block of a FromJSON routine
(a thrown `dmlc::Error` / `tvm::Error`), before it is rewrapped by the
catch-all `LOG(FATAL) << "ValueError: Unable to parse the JSON object"`. -/
inductive ParseDetail where
  | checkFailed (what : String)
  | hashMismatch (given recalculated : String)
  | externalFailure (what : String)
  deriving Repr, DecidableEq

/-- Outcome of a failing FromJSON decode. `fatal` models the
`LOG(FATAL) << "ValueError: Unable to parse the JSON object: " << json_obj
<< "\nThe error is: " << e.what()` path: it carries the offending raw value
and the underlying detail. `nullDeref` models a null-pointer dereference
(a segfault, not a catchable error): the args_info branch of
TuningRecord::FromJSON calls `.as<ArrayNode>()` and uses the result without
checking it for null. -/
inductive FatalError where
  | fatal (raw : JValue) (detail : ParseDetail)
  | nullDeref
  deriving Repr

/-- External collaborators used by the Workload codec, opaque in the source:
`tvm::StructuralHash`, `SHash2Str`, `tvm::SaveJSON` / `LoadJSON` (with the
`Downcast<IRModule>`), and `Base64Encode` / `Base64Decode`. `P` is the
opaque IRModule representation. `loadJSON` and `base64Decode` return
`none` where the C++ functions throw. -/
structure CodecExt (P : Type) where
  structuralHash : P → Nat
  shash2Str : Nat → String
  saveJSON : P → String
  loadJSON : String → Option P
  base64Encode : String → String
  base64Decode : String → Option String

/-- WorkloadNode: immutable pair of an IRModule and its structural hash. -/
structure Workload (P : Type) where
  mod : P
  shash : Nat
  deriving Repr, DecidableEq

/-- Workload::Workload(IRModule mod): computes shash = StructuralHash()(mod). -/
def Workload.ofMod {P : Type} (ext : CodecExt P) (mod : P) : Workload P :=
  { mod := mod, shash := ext.structuralHash mod }

/-- Workload::Workload(IRModule mod, THashCode shash): stores the
caller-supplied hash with no recomputation and no verification. -/
def Workload.ofModHash {P : Type} (mod : P) (shash : Nat) : Workload P :=
  { mod := mod, shash := shash }

/-- WorkloadNode::AsJSON: `[SHash2Str(shash), Base64Encode(SaveJSON(mod))]`. -/
def Workload.asJSON {P : Type} (ext : CodecExt P) (w : Workload P) : JValue :=
  JValue.arr [JValue.str (ext.shash2Str w.shash),
              JValue.str (ext.base64Encode (ext.saveJSON w.mod))]

/-- Workload::FromJSON: expects a 2-element array of strings, base64-decodes
and deserializes the module, recomputes the structural hash, and compares
its string form against the stored string (`CHECK_EQ(recalc_shash,
str_shash)`); every failure inside the try-block becomes the fatal
"Unable to parse the JSON object" error carrying the raw value. On success
it returns `Workload(mod, shash)` with the freshly recomputed hash. -/
def Workload.fromJSON {P : Type} (ext : CodecExt P) (json : JValue) :
    Except FatalError (Workload P) :=
  match json with
  | JValue.arr [a0, a1] =>
    match a0 with
    | JValue.str strShash =>
      match a1 with
      | JValue.str b64Mod =>
        match ext.base64Decode b64Mod with
        | none => Except.error (FatalError.fatal json
            (ParseDetail.externalFailure "Base64Decode"))
        | some jsonMod =>
          match ext.loadJSON jsonMod with
          | none => Except.error (FatalError.fatal json
              (ParseDetail.externalFailure "LoadJSON / Downcast to IRModule"))
          | some mod =>
            let shash := ext.structuralHash mod
            let recalc := ext.shash2Str shash
            if recalc = strShash then
              Except.ok (Workload.ofModHash mod shash)
            else
              Except.error (FatalError.fatal json
                (ParseDetail.hashMismatch strShash recalc))
      | _ => Except.error (FatalError.fatal json
          (ParseDetail.checkFailed "Downcast to String failed at index 1"))
    | _ => Except.error (FatalError.fatal json
        (ParseDetail.checkFailed "Downcast to String failed at index 0"))
  | _ => Except.error (FatalError.fatal json
      (ParseDetail.checkFailed "json_array and json_array size == 2"))

/-- A tiny concrete instantiation of the external collaborators, used to
evaluate the codec on closed inputs: modules are natural numbers, hashing
is the identity, serialization is decimal printing, base64 is the
identity encoding. -/
def natExt : CodecExt Nat where
  structuralHash := fun n => n
  shash2Str := fun n => toString n
  saveJSON := fun n => toString n
  loadJSON := fun s =>
    if s = "0" then some 0 else if s = "5" then some 5 else
    if s = "7" then some 7 else none
  base64Encode := fun s => s
  base64Decode := fun s => some s

example : Workload.fromJSON natExt (JValue.arr [JValue.str "5", JValue.str "5"]) =
    Except.ok (Workload.ofModHash 5 5) := by rfl

example : Workload.fromJSON natExt (JValue.arr [JValue.str "7", JValue.str "5"]) =
    Except.error (FatalError.fatal (JValue.arr [JValue.str "7", JValue.str "5"])
      (ParseDetail.hashMismatch "7" "5")) := by rfl

/-- Claim C1: for every portable value decoded by Workload::FromJSON whose
program field decodes successfully, the content hash of the decoded program
is recomputed and its string form compared against the stored hash string;
if they differ the decode fails fatally with the corruption error carrying
the mismatching strings, and no Workload is returned. -/
theorem workload_fromJSON_hash_mismatch_fails {P : Type} (ext : CodecExt P)
    (strShash b64Mod jsonMod : String) (mod : P)
    (hdec : ext.base64Decode b64Mod = some jsonMod)
    (hload : ext.loadJSON jsonMod = some mod)
    (hne : ext.shash2Str (ext.structuralHash mod) ≠ strShash) :
    Workload.fromJSON ext (JValue.arr [JValue.str strShash, JValue.str b64Mod]) =
      Except.error (FatalError.fatal
        (JValue.arr [JValue.str strShash, JValue.str b64Mod])
        (ParseDetail.hashMismatch strShash
          (ext.shash2Str (ext.structuralHash mod)))) := by
  simp [Workload.fromJSON, hdec, hload, hne]

/-- Witness for C1: decoding a stored hash string "7" against a program whose
recomputed hash string is "5" fails with the corruption error. -/
theorem workload_fromJSON_hash_mismatch_fails_witness :
    Workload.fromJSON natExt (JValue.arr [JValue.str "7", JValue.str "5"]) =
      Except.error (FatalError.fatal
        (JValue.arr [JValue.str "7", JValue.str "5"])
        (ParseDetail.hashMismatch "7"
          (natExt.shash2Str (natExt.structuralHash 5)))) :=
  workload_fromJSON_hash_mismatch_fails natExt "7" "5" "5" 5 rfl rfl (by decide)

/-- Claim C2: round-trip. For every program p (with the external base64 and
JSON serializers satisfying their decode-inverts-encode contracts at p),
Workload::FromJSON of Workload(p).AsJSON succeeds, the resulting Workload's
hash equals Workload(p)'s hash, and the decoded program re-serializes to the
same bytes as serializing p. -/
theorem workload_roundtrip {P : Type} (ext : CodecExt P) (p : P)
    (hb64 : ext.base64Decode (ext.base64Encode (ext.saveJSON p)) =
      some (ext.saveJSON p))
    (hload : ext.loadJSON (ext.saveJSON p) = some p) :
    ∃ w : Workload P,
      Workload.fromJSON ext (Workload.asJSON ext (Workload.ofMod ext p)) =
        Except.ok w ∧
      w.shash = (Workload.ofMod ext p).shash ∧
      ext.saveJSON w.mod = ext.saveJSON p := by
  refine ⟨Workload.ofMod ext p, ?_, rfl, rfl⟩
  simp [Workload.fromJSON, Workload.asJSON, Workload.ofMod, Workload.ofModHash,
    hb64, hload]

/-- Witness for C2: the round trip at the concrete program 5. -/
theorem workload_roundtrip_witness :
    ∃ w : Workload Nat,
      Workload.fromJSON natExt (Workload.asJSON natExt (Workload.ofMod natExt 5)) =
        Except.ok w ∧
      w.shash = (Workload.ofMod natExt 5).shash ∧
      natExt.saveJSON w.mod = natExt.saveJSON 5 :=
  workload_roundtrip natExt 5 rfl rfl

/-- Claim C5 counterexample: the trusted-pair constructor
Workload::Workload(IRModule, THashCode) stores the caller-supplied hash with
no verification, so constructing with hash 999 for program 5 (whose content
hash is 5) yields a Workload violating hash == ContentHash(program). -/
theorem workload_trusted_hash_can_violate :
    (Workload.ofModHash (5 : Nat) 999).shash ≠
      natExt.structuralHash (Workload.ofModHash (5 : Nat) 999).mod := by
  decide

/-- Claim C5 (amended): a Workload constructed from a program alone, or by a
successful decode, satisfies hash == ContentHash(program); a Workload
constructed from a (program, hash) pair carries exactly the supplied hash,
so it satisfies the invariant iff the caller supplies ContentHash(program). -/
theorem workload_hash_construction_paths {P : Type} (ext : CodecExt P) :
    (∀ mod : P, (Workload.ofMod ext mod).shash = ext.structuralHash mod) ∧
    (∀ (json : JValue) (w : Workload P),
        Workload.fromJSON ext json = Except.ok w →
        w.shash = ext.structuralHash w.mod) ∧
    (∀ (mod : P) (h : Nat), (Workload.ofModHash mod h).shash = h) := by
  refine ⟨fun mod => rfl, ?_, fun mod h => rfl⟩
  intro json w h
  unfold Workload.fromJSON at h
  repeat' split at h
  all_goals
    first
      | cases h
      | (dsimp only at h
         split at h
         · cases h
           rfl
         · cases h)

/-- Witness for C5 (amended): the direct path and the decode path at the
concrete program 5. -/
theorem workload_hash_construction_paths_witness :
    (Workload.ofMod natExt 5).shash = natExt.structuralHash 5 ∧
    (Workload.ofModHash 5 5 : Workload Nat).shash =
      natExt.structuralHash (Workload.ofModHash 5 5 : Workload Nat).mod :=
  ⟨(workload_hash_construction_paths natExt).1 5,
   (workload_hash_construction_paths natExt).2.1
     (JValue.arr [JValue.str "5", JValue.str "5"]) (Workload.ofModHash 5 5) rfl⟩

/-- tir::ScheduleErrorRenderLevel, as used by the decode and query paths. -/
inductive RenderLevel where
  | kNone : RenderLevel
  | kDetail : RenderLevel
  deriving Repr, DecidableEq

/-- External collaborators used by the TuningRecord codec and the query
facade, opaque in the source: `tir::Schedule::Traced`,
`tir::Trace::ApplyToSchedule`, `tir::Trace::ApplyJSONToSchedule`,
`sch->trace()`, `sch->mod()`, `trace->AsJSON`, the `Target` constructor and
`Target::Export`, and `ArgInfo::FromJSON` / `AsJSON` / `FromEntryFunc`.
`Tr` is the opaque trace type, `S` the schedule type, `T` the target type,
`A` the arg-info type. Functions returning `Option` return `none` where the
C++ operations throw. -/
structure SchedExt (P Tr S T A : Type) where
  scheduleTraced : P → Int → Int → RenderLevel → S
  applyToSchedule : Tr → S → Bool → S
  applyJSONToSchedule : JValue → S → Option S
  schTrace : S → Option Tr
  schMod : S → P
  traceAsJSON : Tr → Bool → JValue
  targetFromMap : List (String × JValue) → Option T
  targetExport : T → JValue
  argInfoFromJSON : JValue → Option A
  argInfoAsJSON : A → JValue
  argInfoFromEntryFunc : P → Bool → List A

/-- TuningRecordNode: a trace, its workload, and the three optional fields.
Numeric measurement payloads are modelled by their `JValue.num` leaves. -/
structure TuningRecord (P Tr T A : Type) where
  trace : Tr
  workload : Workload P
  run_secs : Option (List Int)
  target : Option T
  args_info : Option (List A)

/-- Modelled from the spec: the helper AsFloatArray lives in
src/meta_schedule/utils.h, which is not part of src/; the spec describes
run_secs as an optional ordered sequence of measured durations, decoded
from a portable array of numeric leaves, with any other shape a hard parse
failure. -/
def asFloatArray (j : JValue) : Option (List Int) :=
  match j with
  | JValue.arr elems =>
    elems.mapM (fun e =>
      match e with
      | JValue.num v => some v
      | _ => none)
  | _ => none

/-- The trace-loading step of TuningRecord::FromJSON (performed last):
builds a traced schedule over workload->mod with no error rendering,
replays the encoded trace onto it via ApplyJSONToSchedule, and reads back
`sch->trace().value()`; a throw from either step is caught and rewrapped as
the fatal parse error carrying the raw record value. -/
def TuningRecord.decodeTrace {P Tr S T A : Type} (ext : SchedExt P Tr S T A)
    (json : JValue) (workload : Workload P) (jsonTrace : JValue)
    (run_secs : Option (List Int)) (target : Option T)
    (args_info : Option (List A)) :
    Except FatalError (TuningRecord P Tr T A) :=
  let sch := ext.scheduleTraced workload.mod (-1) 0 RenderLevel.kNone
  match ext.applyJSONToSchedule jsonTrace sch with
  | none => Except.error (FatalError.fatal json
      (ParseDetail.externalFailure "ApplyJSONToSchedule"))
  | some sch2 =>
    match ext.schTrace sch2 with
    | none => Except.error (FatalError.fatal json
        (ParseDetail.externalFailure "sch trace has no value"))
    | some trace =>
      Except.ok { trace := trace, workload := workload, run_secs := run_secs,
                  target := target, args_info := args_info }

/-- TuningRecord::FromJSON: expects a 4-element array and loads, in source
order, json[1] (run_secs, via AsFloatArray when defined), json[2] (target,
via Downcast to Map and the Target constructor when defined), json[3]
(args_info when defined) and finally json[0] (the trace). Failures thrown
inside the try-block become the fatal "Unable to parse the JSON object"
error carrying the raw value. The args_info branch reproduces the source
faithfully: `json_array->at(3).as<ArrayNode>()` is used without a null
check, so a defined non-array value at position 3 dereferences a null
pointer (`FatalError.nullDeref`) instead of raising a parse error. -/
def TuningRecord.fromJSON {P Tr S T A : Type} (ext : SchedExt P Tr S T A)
    (json : JValue) (workload : Workload P) :
    Except FatalError (TuningRecord P Tr T A) :=
  match json with
  | JValue.arr [j0, j1, j2, j3] =>
    let runSecsR : Except ParseDetail (Option (List Int)) :=
      match j1 with
      | JValue.null => Except.ok none
      | _ =>
        match asFloatArray j1 with
        | some fs => Except.ok (some fs)
        | none => Except.error (ParseDetail.checkFailed "AsFloatArray")
    match runSecsR with
    | Except.error d => Except.error (FatalError.fatal json d)
    | Except.ok run_secs =>
      let targetR : Except ParseDetail (Option T) :=
        match j2 with
        | JValue.null => Except.ok none
        | JValue.map fields =>
          match ext.targetFromMap fields with
          | some t => Except.ok (some t)
          | none => Except.error
              (ParseDetail.externalFailure "Target constructor")
        | _ => Except.error (ParseDetail.checkFailed "Downcast to Map failed")
      match targetR with
      | Except.error d => Except.error (FatalError.fatal json d)
      | Except.ok target =>
        match j3 with
        | JValue.null =>
          TuningRecord.decodeTrace ext json workload j0 run_secs target none
        | JValue.arr items =>
          match items.mapM ext.argInfoFromJSON with
          | some infos =>
            TuningRecord.decodeTrace ext json workload j0 run_secs target
              (some infos)
          | none => Except.error (FatalError.fatal json
              (ParseDetail.externalFailure "ArgInfo FromJSON"))
        | _ => Except.error FatalError.nullDeref
  | _ => Except.error (FatalError.fatal json
      (ParseDetail.checkFailed "json_array and json_array size == 4"))

/-- run_secs as emitted by TuningRecordNode::AsJSON: the Array of FloatImm
or an undefined ObjectRef. -/
def runSecsToJSON (rs : Option (List Int)) : JValue :=
  match rs with
  | none => JValue.null
  | some fs => JValue.arr (fs.map JValue.num)

/-- TuningRecordNode::AsJSON: `[trace AsJSON(false), run_secs,
target Export or undefined, args_info AsJSON array or undefined]`. -/
def TuningRecord.asJSON {P Tr S T A : Type} (ext : SchedExt P Tr S T A)
    (r : TuningRecord P Tr T A) : JValue :=
  JValue.arr [ext.traceAsJSON r.trace false,
              runSecsToJSON r.run_secs,
              (match r.target with
               | none => JValue.null
               | some t => ext.targetExport t),
              (match r.args_info with
               | none => JValue.null
               | some infos => JValue.arr (infos.map ext.argInfoAsJSON))]

/-- MeasureCandidate: a replayed schedule plus inferred arg-info. -/
structure MeasureCandidate (S A : Type) where
  sch : S
  args_info : List A

/-- TuningRecordNode::AsMeasureCandidate: builds a traced schedule from
workload->mod with detailed error rendering, replays the trace, and infers
the arg-info from the entry function with preproc removal. -/
def TuningRecord.asMeasureCandidate {P Tr S T A : Type}
    (ext : SchedExt P Tr S T A) (r : TuningRecord P Tr T A) :
    MeasureCandidate S A :=
  let sch := ext.scheduleTraced r.workload.mod (-1) 0 RenderLevel.kDetail
  let sch2 := ext.applyToSchedule r.trace sch false
  MeasureCandidate.mk sch2 (ext.argInfoFromEntryFunc (ext.schMod sch2) true)

/-- A trivial concrete instantiation of the schedule-side collaborators,
used to evaluate the TuningRecord codec on closed inputs. -/
def unitSched : SchedExt Nat Unit Unit Unit Unit where
  scheduleTraced := fun _ _ _ _ => ()
  applyToSchedule := fun _ s _ => s
  applyJSONToSchedule := fun _ _ => some ()
  schTrace := fun _ => some ()
  schMod := fun _ => 0
  traceAsJSON := fun _ _ => JValue.null
  targetFromMap := fun _ => some ()
  targetExport := fun _ => JValue.null
  argInfoFromJSON := fun _ => some ()
  argInfoAsJSON := fun _ => JValue.null
  argInfoFromEntryFunc := fun _ _ => []

/-- Claim C4 (failing input): on the 4-element record whose args_info slot
holds a defined non-array value, TuningRecord::FromJSON dereferences the
null result of `.as<ArrayNode>()` — a crash, not the descriptive parse
error (carrying the offending raw value and the error detail) that the
spec requires for every shape mismatch. The other three positions and the
arity check do raise the descriptive error. -/
theorem tuningRecord_fromJSON_args_info_crash :
    TuningRecord.fromJSON unitSched
      (JValue.arr [JValue.null, JValue.null, JValue.null, JValue.str "oops"])
      (Workload.ofModHash 5 5) =
    Except.error FatalError.nullDeref := by rfl

/-- The DatabaseNode contract: the six pure-virtual operations, modelled as
explicit state passing over an abstract backend state σ. -/
structure Backend (σ P Tr T A : Type) where
  hasWorkload : σ → P → Bool × σ
  commitWorkload : σ → P → Workload P × σ
  commitTuningRecord : σ → TuningRecord P Tr T A → σ
  getTopK : σ → Workload P → Int → List (TuningRecord P Tr T A) × σ
  getAllTuningRecords : σ → List (TuningRecord P Tr T A) × σ
  size : σ → Nat × σ

/-- Database::PyDatabase: the callback-bridged database stores six externally
supplied functions, one per contract operation, and forwards every call
verbatim. -/
def pyDatabase {σ P Tr T A : Type}
    (fHasWorkload : σ → P → Bool × σ)
    (fCommitWorkload : σ → P → Workload P × σ)
    (fCommitTuningRecord : σ → TuningRecord P Tr T A → σ)
    (fGetTopK : σ → Workload P → Int → List (TuningRecord P Tr T A) × σ)
    (fGetAllTuningRecords : σ → List (TuningRecord P Tr T A) × σ)
    (fSize : σ → Nat × σ) : Backend σ P Tr T A :=
  { hasWorkload := fHasWorkload, commitWorkload := fCommitWorkload,
    commitTuningRecord := fCommitTuningRecord, getTopK := fGetTopK,
    getAllTuningRecords := fGetAllTuningRecords, size := fSize }

/-- Failure of an internal consistency check (ICHECK) in the query facade. -/
inductive QueryFailure where
  | icheckFail (what : String)
  deriving Repr, DecidableEq

/-- DatabaseNode::QueryTuningRecord: if HasWorkload(mod) is false return
NullOpt; else records = GetTopK(CommitWorkload(mod), 1); if empty return
NullOpt; ICHECK_EQ(records.size(), 1); return records[0]. The target
parameter is accepted but never used. -/
def queryTuningRecord {σ P Tr T A : Type} (db : Backend σ P Tr T A) (s : σ)
    (mod : P) (target : T) :
    Except QueryFailure (Option (TuningRecord P Tr T A) × σ) :=
  match db.hasWorkload s mod with
  | (false, s1) => Except.ok (none, s1)
  | (true, s1) =>
    match db.commitWorkload s1 mod with
    | (w, s2) =>
      match db.getTopK s2 w 1 with
      | (records, s3) =>
        match records with
        | [] => Except.ok (none, s3)
        | [r] => Except.ok (some r, s3)
        | _ => Except.error (QueryFailure.icheckFail "records size == 1")

/-- One backend invocation, with its arguments: used to observe the exact
sequence of contract operations the facade performs. -/
inductive DbCall (P Tr T A : Type) where
  | hasWorkload (mod : P)
  | commitWorkload (mod : P)
  | commitTuningRecord (r : TuningRecord P Tr T A)
  | getTopK (w : Workload P) (k : Int)
  | getAllTuningRecords
  | size

/-- Wraps a backend so that every invocation appends itself (operation and
arguments) to a log carried in the state. -/
def instrument {σ P Tr T A : Type} (db : Backend σ P Tr T A) :
    Backend (σ × List (DbCall P Tr T A)) P Tr T A where
  hasWorkload := fun sl m =>
    match db.hasWorkload sl.1 m with
    | (b, s2) => (b, (s2, sl.2 ++ [DbCall.hasWorkload m]))
  commitWorkload := fun sl m =>
    match db.commitWorkload sl.1 m with
    | (w, s2) => (w, (s2, sl.2 ++ [DbCall.commitWorkload m]))
  commitTuningRecord := fun sl r =>
    (db.commitTuningRecord sl.1 r, sl.2 ++ [DbCall.commitTuningRecord r])
  getTopK := fun sl w k =>
    match db.getTopK sl.1 w k with
    | (rs, s2) => (rs, (s2, sl.2 ++ [DbCall.getTopK w k]))
  getAllTuningRecords := fun sl =>
    match db.getAllTuningRecords sl.1 with
    | (rs, s2) => (rs, (s2, sl.2 ++ [DbCall.getAllTuningRecords]))
  size := fun sl =>
    match db.size sl.1 with
    | (n, s2) => (n, (s2, sl.2 ++ [DbCall.size]))

/-- Claim C3: QueryTuningRecord, run over an instrumented backend, performs
exactly one HasWorkload call and returns none when the workload is absent
(no CommitWorkload, no CommitTuningRecord, no other mutation); otherwise it
performs exactly HasWorkload, CommitWorkload, GetTopK(w, 1) in that order
and returns the sole record if the result is non-empty, else none. -/
theorem queryTuningRecord_op_sequence {σ P Tr T A : Type}
    (db : Backend σ P Tr T A) (s : σ) (mod : P) (target : T) :
    queryTuningRecord (instrument db) (s, []) mod target =
      match db.hasWorkload s mod with
      | (false, s1) => Except.ok (none, (s1, [DbCall.hasWorkload mod]))
      | (true, s1) =>
        match db.commitWorkload s1 mod with
        | (w, s2) =>
          match db.getTopK s2 w 1 with
          | (records, s3) =>
            match records with
            | [] => Except.ok (none, (s3, [DbCall.hasWorkload mod,
                DbCall.commitWorkload mod, DbCall.getTopK w 1]))
            | [r] => Except.ok (some r, (s3, [DbCall.hasWorkload mod,
                DbCall.commitWorkload mod, DbCall.getTopK w 1]))
            | _ => Except.error (QueryFailure.icheckFail "records size == 1")
      := by
  unfold queryTuningRecord instrument
  rcases h1 : db.hasWorkload s mod with ⟨b, s1⟩
  cases b with
  | false => simp [h1]
  | true =>
    rcases h2 : db.commitWorkload s1 mod with ⟨w, s2⟩
    rcases h3 : db.getTopK s2 w 1 with ⟨records, s3⟩
    cases records with
    | nil => simp [h1, h2, h3]
    | cons r rs =>
      cases rs with
      | nil => simp [h1, h2, h3]
      | cons r2 rs2 => simp [h1, h2, h3]

/-- Claim C7: the target argument of QueryTuningRecord is informational
only; for any two targets the call returns the same result and, over an
instrumented backend, performs the identical sequence of backend
operations with identical arguments. -/
theorem queryTuningRecord_target_irrelevant {σ P Tr T A : Type}
    (db : Backend σ P Tr T A) (s : σ) (mod : P) (t1 t2 : T) :
    queryTuningRecord db s mod t1 = queryTuningRecord db s mod t2 ∧
    queryTuningRecord (instrument db) (s, []) mod t1 =
      queryTuningRecord (instrument db) (s, []) mod t2 :=
  ⟨rfl, rfl⟩

/-- Claim C10: when GetTopK(w, 1) returns a non-empty sequence,
QueryTuningRecord returns its sole element if it has exactly one, and fails
the internal ICHECK if it has more; consequently every record it returns is
the single element of a size-1 GetTopK result. -/
theorem queryTuningRecord_topk_single {σ P Tr T A : Type}
    (db : Backend σ P Tr T A) (s : σ) (mod : P) (target : T)
    (s1 : σ) (w : Workload P) (s2 : σ) (r : TuningRecord P Tr T A)
    (rs : List (TuningRecord P Tr T A)) (s3 : σ)
    (h1 : db.hasWorkload s mod = (true, s1))
    (h2 : db.commitWorkload s1 mod = (w, s2))
    (h3 : db.getTopK s2 w 1 = (r :: rs, s3)) :
    (queryTuningRecord db s mod target =
      match rs with
      | [] => Except.ok (some r, s3)
      | _ :: _ => Except.error (QueryFailure.icheckFail "records size == 1")) ∧
    (∀ (r' : TuningRecord P Tr T A) (s' : σ),
      queryTuningRecord db s mod target = Except.ok (some r', s') →
      r :: rs = [r'] ∧ s' = s3) := by
  unfold queryTuningRecord
  cases rs with
  | nil =>
    constructor
    · simp [h1, h2, h3]
    · intro r' s' h
      simp [h1, h2, h3] at h
      simp [h.1, h.2]
  | cons a as =>
    constructor
    · simp [h1, h2, h3]
    · intro r' s' h
      simp [h1, h2, h3] at h

/-- A concrete tuning record used to exercise the query facade. -/
def recNat : TuningRecord Nat Unit Unit Unit :=
  { trace := (), workload := Workload.ofModHash 5 5, run_secs := some [1],
    target := none, args_info := none }

/-- A concrete one-record backend used to exercise the query facade: every
workload is present and GetTopK always returns the single record. -/
def oneRecordBackend : Backend Nat Nat Unit Unit Unit where
  hasWorkload := fun s _ => (true, s)
  commitWorkload := fun s m => (Workload.ofModHash m m, s)
  commitTuningRecord := fun s _ => s
  getTopK := fun s _ _ => ([recNat], s)
  getAllTuningRecords := fun s => ([recNat], s)
  size := fun s => (1, s)

/-- Witness for C10: on the one-record backend, QueryTuningRecord returns
the sole element of the size-1 GetTopK result. -/
theorem queryTuningRecord_topk_single_witness :
    queryTuningRecord oneRecordBackend 0 5 () = Except.ok (some recNat, 0) :=
  (queryTuningRecord_topk_single oneRecordBackend 0 5 () 0
    (Workload.ofModHash 5 5) 0 recNat [] 0 rfl rfl rfl).1

/-- The schedule QuerySchedule materializes when a record is found: a fresh
traced schedule built from record->workload->mod (not from the query
module) with detailed error rendering, with the record's trace replayed
onto it. -/
def scheduleFromRecord {P Tr S T A : Type} (ext : SchedExt P Tr S T A)
    (r : TuningRecord P Tr T A) : S :=
  ext.applyToSchedule r.trace
    (ext.scheduleTraced r.workload.mod (-1) 0 RenderLevel.kDetail) false

/-- DatabaseNode::QuerySchedule: queries the tuning record; when one is
found, builds a traced schedule from record->workload->mod with detailed
error rendering, replays record->trace onto it, and returns it; otherwise
NullOpt. -/
def querySchedule {σ P Tr S T A : Type} (ext : SchedExt P Tr S T A)
    (db : Backend σ P Tr T A) (s : σ) (mod : P) (target : T) :
    Except QueryFailure (Option S × σ) :=
  match queryTuningRecord db s mod target with
  | Except.error e => Except.error e
  | Except.ok (none, s') => Except.ok (none, s')
  | Except.ok (some record, s') =>
    let sch := ext.scheduleTraced record.workload.mod (-1) 0 RenderLevel.kDetail
    let sch2 := ext.applyToSchedule record.trace sch false
    Except.ok (some sch2, s')

/-- DatabaseNode::QueryIRModule: the module of QuerySchedule's schedule, or
NullOpt when QuerySchedule returns NullOpt. -/
def queryIRModule {σ P Tr S T A : Type} (ext : SchedExt P Tr S T A)
    (db : Backend σ P Tr T A) (s : σ) (mod : P) (target : T) :
    Except QueryFailure (Option P × σ) :=
  match querySchedule ext db s mod target with
  | Except.error e => Except.error e
  | Except.ok (none, s') => Except.ok (none, s')
  | Except.ok (some sch, s') => Except.ok (some (ext.schMod sch), s')

/-- Claim C6: when QueryTuningRecord finds a record, QuerySchedule returns
the schedule built from the found record's own workload program (via
scheduleFromRecord, which does not see the query module) with the record's
trace replayed, and none when no record is found; QueryIRModule returns the
program of QuerySchedule's schedule, or none when QuerySchedule returns
none. Moreover the schedule depends on the query module only through the
record found. -/
theorem querySchedule_uses_stored_workload {σ P Tr S T A : Type}
    (ext : SchedExt P Tr S T A) (db : Backend σ P Tr T A) (s : σ) (mod : P)
    (target : T) :
    (querySchedule ext db s mod target =
      match queryTuningRecord db s mod target with
      | Except.error e => Except.error e
      | Except.ok (none, s') => Except.ok (none, s')
      | Except.ok (some record, s') =>
          Except.ok (some (scheduleFromRecord ext record), s')) ∧
    (queryIRModule ext db s mod target =
      match querySchedule ext db s mod target with
      | Except.error e => Except.error e
      | Except.ok (none, s') => Except.ok (none, s')
      | Except.ok (some sch, s') => Except.ok (some (ext.schMod sch), s')) ∧
    (∀ mod' : P,
      queryTuningRecord db s mod' target = queryTuningRecord db s mod target →
      querySchedule ext db s mod' target = querySchedule ext db s mod target) := by
  refine ⟨?_, ?_, ?_⟩
  · unfold querySchedule
    cases queryTuningRecord db s mod target with
    | error e => rfl
    | ok p =>
      rcases p with ⟨o, s'⟩
      cases o with
      | none => rfl
      | some record => rfl
  · rfl
  · intro mod' h
    unfold querySchedule
    rw [h]

/-- Witness for C6: on the one-record backend the found record's workload
program (5) is what the schedule is built from, even when querying for the
different module 7. -/
theorem querySchedule_uses_stored_workload_witness :
    querySchedule unitSched oneRecordBackend 0 5 () =
      Except.ok (some (scheduleFromRecord unitSched recNat), 0) ∧
    querySchedule unitSched oneRecordBackend 0 7 () =
      querySchedule unitSched oneRecordBackend 0 5 () := by
  constructor
  · exact ((querySchedule_uses_stored_workload unitSched oneRecordBackend
      0 5 ()).1).trans (by rfl)
  · exact (querySchedule_uses_stored_workload unitSched oneRecordBackend
      0 5 ()).2.2 7 (by rfl)

/-- One thread's `static thread_local std::vector<Database>` from
ThreadLocalDatabases(): `D` is the opaque database-handle type; push_back
appends at the end, back() is the last element. Each thread owns an
independent such stack, so a second thread's stack is unaffected by these
operations by construction. -/
def enterWithScope {D : Type} (db : D) (tls : List D) : List D := tls ++ [db]

/-- Database::Current: back() of the calling thread's stack, or NullOpt if
the stack is empty. -/
def currentDatabase {D : Type} (tls : List D) : Option D := tls.getLast?

/-- Outcome of Database::ExitWithScope. The source is an unchecked
`ThreadLocalDatabases()->pop_back()`: on an empty vector this is undefined
behavior, modelled as `undefinedBehavior`. `raisedEmptyScopeError` is never
produced by the source; the constructor exists only so that the spec's
claimed detected-error behavior is expressible for comparison. -/
inductive ExitOutcome (D : Type) where
  | popped (tls : List D)
  | raisedEmptyScopeError
  | undefinedBehavior
  deriving Repr, DecidableEq

/-- Database::ExitWithScope: `ThreadLocalDatabases()->pop_back()`, with no
emptiness check. -/
def exitWithScope {D : Type} (tls : List D) : ExitOutcome D :=
  match tls with
  | [] => ExitOutcome.undefinedBehavior
  | _ => ExitOutcome.popped tls.dropLast

/-- An enter/exit event on one thread's scoped-database stack. -/
inductive ScopeOp (D : Type) where
  | enter (db : D)
  | exitScope
  deriving Repr, DecidableEq

/-- Runs a sequence of enter/exit operations from a starting stack;
`none` when some exit hits an empty stack (undefined behavior). -/
def runScopeOps {D : Type} : List (ScopeOp D) → List D → Option (List D)
  | [], tls => some tls
  | ScopeOp.enter db :: rest, tls => runScopeOps rest (enterWithScope db tls)
  | ScopeOp.exitScope :: rest, tls =>
    match exitWithScope tls with
    | ExitOutcome.popped tls2 => runScopeOps rest tls2
    | _ => none

/-- Scans an operation history from the most recent event backwards,
skipping one enter per crossed exit; the first unskipped enter is the most
recently entered, not-yet-exited database. -/
def mruAux {D : Type} : List (ScopeOp D) → Nat → Option D
  | [], _ => none
  | ScopeOp.exitScope :: rest, skip => mruAux rest (skip + 1)
  | ScopeOp.enter db :: rest, skip =>
    match skip with
    | 0 => some db
    | k + 1 => mruAux rest k

/-- The spec's characterization of Current over an operation history: the
most recently entered, not-yet-exited database, or none. -/
def mostRecentUnexited {D : Type} (ops : List (ScopeOp D)) : Option D :=
  mruAux ops.reverse 0

theorem exitWithScope_concat {D : Type} (l : List D) (d : D) :
    exitWithScope (l ++ [d]) = ExitOutcome.popped l := by
  cases l with
  | nil => rfl
  | cons a as =>
    show ExitOutcome.popped (((a :: as) ++ [d]).dropLast) =
      ExitOutcome.popped (a :: as)
    rw [List.dropLast_concat]

theorem mruAux_cancel {D : Type} (d : D) (ys : List (ScopeOp D)) :
    ∀ (xs : List (ScopeOp D)) (k : Nat),
      mruAux (xs ++ ScopeOp.exitScope :: ScopeOp.enter d :: ys) k =
        mruAux (xs ++ ys) k := by
  intro xs
  induction xs with
  | nil => intro k; simp [mruAux]
  | cons op rest ih =>
    intro k
    cases op with
    | enter e =>
      cases k with
      | zero => simp [mruAux]
      | succ k2 => simp [mruAux, ih]
    | exitScope => simp [mruAux, ih]

theorem currentDatabase_eq_mruAux {D : Type} (tls : List D) :
    currentDatabase tls = mruAux (tls.reverse.map ScopeOp.enter) 0 := by
  induction tls using List.reverseRecOn with
  | nil => rfl
  | append_singleton l d ih =>
    simp [currentDatabase, mruAux]

theorem runScopeOps_current {D : Type} :
    ∀ (ops : List (ScopeOp D)) (tls tls2 : List D),
      runScopeOps ops tls = some tls2 →
      currentDatabase tls2 =
        mruAux (ops.reverse ++ tls.reverse.map ScopeOp.enter) 0 := by
  intro ops
  induction ops with
  | nil =>
    intro tls tls2 h
    have heq : tls = tls2 := by simpa [runScopeOps] using h
    subst heq
    simpa using currentDatabase_eq_mruAux tls
  | cons op rest ih =>
    intro tls tls2 h
    cases op with
    | enter db =>
      have h2 : runScopeOps rest (enterWithScope db tls) = some tls2 := h
      have := ih (enterWithScope db tls) tls2 h2
      simpa [enterWithScope] using this
    | exitScope =>
      revert h
      cases tls using List.reverseRecOn with
      | nil =>
        intro h
        simp [runScopeOps, exitWithScope] at h
      | append_singleton l d =>
        intro h
        have h2 : runScopeOps rest l = some tls2 := by
          simpa [runScopeOps, exitWithScope_concat] using h
        have h3 := ih l tls2 h2
        simpa [mruAux_cancel] using h3

/-- Claim C8: the scoped context stack is LIFO for the calling thread:
Current is none on the empty stack; after entering db1 then db2, Current is
db2; one ExitWithScope later Current is db1; and over every well-nested
sequence of enter/exit operations from an empty stack, Current returns the
most recently entered, not-yet-exited database, or none. -/
theorem scoped_stack_lifo {D : Type} (db1 db2 : D) :
    currentDatabase ([] : List D) = none ∧
    currentDatabase (enterWithScope db2 (enterWithScope db1 [])) = some db2 ∧
    exitWithScope (enterWithScope db2 (enterWithScope db1 [])) =
      ExitOutcome.popped (enterWithScope db1 []) ∧
    currentDatabase (enterWithScope db1 []) = some db1 ∧
    (∀ (ops : List (ScopeOp D)) (tls2 : List D),
      runScopeOps ops [] = some tls2 →
      currentDatabase tls2 = mostRecentUnexited ops) := by
  refine ⟨rfl, rfl, rfl, rfl, ?_⟩
  intro ops tls2 h
  have := runScopeOps_current ops [] tls2 h
  simpa [mostRecentUnexited] using this

/-- Witness for C8: the sequence enter 1, enter 2, exit leaves Current at
the most recently entered, not-yet-exited database 1. -/
theorem scoped_stack_lifo_witness :
    currentDatabase [1] = mostRecentUnexited
      [ScopeOp.enter (1 : Nat), ScopeOp.enter 2, ScopeOp.exitScope] :=
  (scoped_stack_lifo (1 : Nat) 2).2.2.2.2
    [ScopeOp.enter 1, ScopeOp.enter 2, ScopeOp.exitScope] [1] rfl

/-- Claim C9 counterexample: ExitWithScope on an empty stack executes an
unchecked pop_back — undefined behavior — and does not produce a detected
EmptyScopeError. -/
theorem exitWithScope_empty_no_error :
    exitWithScope ([] : List Nat) = ExitOutcome.undefinedBehavior ∧
    exitWithScope ([] : List Nat) ≠ ExitOutcome.raisedEmptyScopeError := by
  exact ⟨rfl, by decide⟩

/-- Claim C9 (amended): ExitWithScope pops the most recent entry of a
non-empty stack; called on an empty stack it is undefined behavior (the
source performs pop_back with no emptiness check), neither completing
normally nor raising a detected error. -/
theorem exitWithScope_behavior {D : Type} (tls : List D) :
    (tls = [] → exitWithScope tls = ExitOutcome.undefinedBehavior) ∧
    (∀ (l : List D) (db : D), tls = l ++ [db] →
      exitWithScope tls = ExitOutcome.popped l) := by
  constructor
  · intro h; subst h; rfl
  · intro l db h
    subst h
    exact exitWithScope_concat l db

/-- Witness for C9 (amended): the empty stack is undefined behavior and a
two-element stack pops to its first element. -/
theorem exitWithScope_behavior_witness :
    exitWithScope ([] : List Nat) = ExitOutcome.undefinedBehavior ∧
    exitWithScope [1, 2] = ExitOutcome.popped [1] :=
  ⟨(exitWithScope_behavior ([] : List Nat)).1 rfl,
   (exitWithScope_behavior [1, 2]).2 [1] 2 rfl⟩
